import Mathlib

/-!
Verification development for a WhatsApp webhook relay (a single Flask
script, src/app.py). The definitions below are a shallow embedding of the
script: machine state (the persisted retry file, webhook payloads) is made
explicit, network calls are replaced by outcome oracles, and timestamps
are integers (seconds). Each claim about the program is then settled as a
theorem over these definitions.
-/

/-! ## Configuration constants (app.py lines 28-33) -/

def MAX_RETRIES : Nat := 5

def RETRY_INTERVAL_SECONDS : Int := 60

def IGNORED_TYPES : List String := ["status", "sticker", "reaction", "location", "unknown", "video"]

def ALLOWED_MEDIA_TYPES : List String := ["image", "document", "audio"]

/-! ## A minimal model of the JSON dictionaries this script builds.

The script only ever builds two-level dictionaries: top-level string keys
mapped either to a string or to a flat string-to-string object (for
example the body "text" maps to the object with key "body"). -/

inductive Val where
  | s (v : String)
  | d (kvs : List (String × String))
deriving DecidableEq

abbrev JsonObj := List (String × Val)

/-- Python dict.update: keys of the base keep their position and are
overwritten when present in the update; new keys are appended. -/
def dictUpdate (base upd : JsonObj) : JsonObj :=
  base.map (fun kv =>
    match upd.lookup kv.1 with
    | some v => (kv.1, v)
    | none => kv) ++ upd.filter (fun kv => (base.lookup kv.1).isNone)

/-! ## Retry queue data model (app.py lines 126-133, 139-146, 190-197) -/

/-- One persisted retry entry, as enqueued by enqueue_retry. -/
structure RetryItem where
  id : String
  phone_number_id : String
  to_ : String
  message : JsonObj
  attempts : Nat
  last_try : Int
deriving DecidableEq

/-- The Graph API url built by send_message (app.py line 112). -/
def send_message_url (phone_number_id : String) : String :=
  "https://graph.facebook.com/v20.0/" ++ phone_number_id ++ "/messages"

/-- The request body built by send_message (app.py lines 114-115):
the messaging_product/to envelope updated with the message content. -/
def send_message_payload (to_ : String) (message : JsonObj) : JsonObj :=
  dictUpdate [("messaging_product", Val.s "whatsapp"), ("to", Val.s to_)] message

/-- The retry entry enqueued by send_message on a non-200 status or an
exception (app.py lines 126-133 and 139-146): note the stored "message"
field is the raw message argument, not the enveloped payload. -/
def send_message_retry_item (event_id phone_number_id to_ : String) (message : JsonObj)
    (now : Int) : RetryItem :=
  { id := event_id, phone_number_id := phone_number_id, to_ := to_, message := message,
    attempts := 1, last_try := now }

/-- The url the retry worker posts to when resending (app.py line 495). -/
def retry_post_url (item : RetryItem) : String :=
  "https://graph.facebook.com/v20.0/" ++ item.phone_number_id ++ "/messages"

/-- The JSON body the retry worker posts when resending (app.py line 497):
it is the stored message field, posted as-is. -/
def retry_post_body (item : RetryItem) : JsonObj :=
  item.message

/-! ## Persisted retry file (app.py lines 65-80) -/

/-- State of the retries.json backing file as seen by load_retries. -/
inductive RetryFile where
  | missing
  | unreadable
  | invalidJson
  | valid (items : List RetryItem)
deriving DecidableEq

/-- load_retries (app.py lines 65-72): a missing file falls through to the
empty list; an unreadable file or invalid JSON raises inside the try block,
is caught, logged and the empty list is returned. -/
def load_retries : RetryFile → List RetryItem
  | RetryFile.missing => []
  | RetryFile.unreadable => []
  | RetryFile.invalidJson => []
  | RetryFile.valid items => items

/-- The log lines emitted by load_retries: only the except branch logs
(app.py line 71); the missing-file path is silent. -/
def load_retries_log : RetryFile → List String
  | RetryFile.missing => []
  | RetryFile.unreadable => ["Erro ao carregar retries.json"]
  | RetryFile.invalidJson => ["Erro ao carregar retries.json"]
  | RetryFile.valid _ => []

/-! ## Retry worker (app.py lines 468-514) -/

/-- Outcome of one resend POST inside the retry worker: HTTP 200, a
non-200 status, or a raised exception (app.py lines 498-509). -/
inductive SendOutcome where
  | ok
  | errStatus
  | exn
deriving DecidableEq

/-- One item of the retry worker loop body (app.py lines 479-509), as the
list of queue entries it contributes (none when dropped, the unchanged
item when not yet due, the bumped item on a failed resend). -/
def retry_step (now : Int) (oc : SendOutcome) (item : RetryItem) : Option RetryItem :=
  if MAX_RETRIES ≤ item.attempts then none
  else if now - item.last_try < RETRY_INTERVAL_SECONDS then some item
  else
    match oc with
    | SendOutcome.ok => none
    | SendOutcome.errStatus => some { item with attempts := item.attempts + 1, last_try := now }
    | SendOutcome.exn => some { item with attempts := item.attempts + 1, last_try := now }

/-- Whether the loop body reaches the resend POST for this item
(app.py line 495): only when not dropped and past the backoff window. -/
def retry_step_sends (now : Int) (item : RetryItem) : Bool :=
  if MAX_RETRIES ≤ item.attempts then false
  else if now - item.last_try < RETRY_INTERVAL_SECONDS then false
  else true

/-- The full retry worker pass over the drained queue (app.py lines
477-509), building new_queue in order. The resend outcome for each item is
supplied by the oracle. -/
def retry_worker_cycle (now : Int) (outcome : RetryItem → SendOutcome) :
    List RetryItem → List RetryItem
  | [] => []
  | item :: rest =>
    if MAX_RETRIES ≤ item.attempts then retry_worker_cycle now outcome rest
    else if now - item.last_try < RETRY_INTERVAL_SECONDS then
      item :: retry_worker_cycle now outcome rest
    else
      match outcome item with
      | SendOutcome.ok => retry_worker_cycle now outcome rest
      | SendOutcome.errStatus =>
        { item with attempts := item.attempts + 1, last_try := now } ::
          retry_worker_cycle now outcome rest
      | SendOutcome.exn =>
        { item with attempts := item.attempts + 1, last_try := now } ::
          retry_worker_cycle now outcome rest

/-- One whole cycle of retry_worker including persistence (app.py lines
471-511): an empty drained queue leaves the file untouched (the loop
sleeps and continues before saving); otherwise save_retries overwrites the
file with new_queue. -/
def retry_worker_pass (file : RetryFile) (now : Int) (outcome : RetryItem → SendOutcome) :
    RetryFile :=
  if load_retries file = [] then file
  else RetryFile.valid (retry_worker_cycle now outcome (load_retries file))

/-- Evolution of a single retry item over successive worker cycles, each
cycle bringing a timestamp and a resend outcome; none means the item was
dropped (success or max attempts reached). -/
def item_lifecycle : List (Int × SendOutcome) → RetryItem → Option RetryItem
  | [], item => some item
  | s :: rest, item =>
    match retry_step s.1 s.2 item with
    | none => none
    | some it => item_lifecycle rest it

/-! ## Webhook payload data model (app.py lines 289-463)

The nested provider notification is modelled structurally; each Message
field models one dictionary access the handler performs, with the same
missing-key defaults. -/

/-- The media sub-object of a message: msg.get(msg_type) for an allowed
media type (app.py lines 402-404). -/
structure MediaObj where
  id : Option String
  caption : String
deriving DecidableEq

/-- One shared contact entry of a "contacts" message (app.py lines 361-367). -/
structure ContactCard where
  formatted_name : String
  phones : List String
deriving DecidableEq

/-- One inbound message, with fields for every key the handler reads. -/
structure Message where
  sender : Option String
  mtype : Option String
  profile_name : String
  text_body : String
  interactive_itype : Option String
  interactive_button_text : Option String
  interactive_button_payload : String
  interactive_list_title : Option String
  interactive_list_id : String
  contacts : List ContactCard
  image : Option MediaObj
  document : Option MediaObj
  audio : Option MediaObj
  raw_json : String
deriving DecidableEq

/-- change.get("value", ...) (app.py lines 310-311, 318). -/
structure ChangeValue where
  phone_number_id : Option String
  messages : List Message
deriving DecidableEq

structure Change where
  value : ChangeValue
deriving DecidableEq

structure Entry where
  changes : List Change
deriving DecidableEq

structure WebhookPayload where
  entry : List Entry
deriving DecidableEq

/-- Environment configuration the handler reads (app.py lines 18-22). -/
structure Config where
  forward_number : String
  new_number : Option String

/-- Outcomes of the network calls the handler makes, supplied externally:
whether forward_media succeeds for a given media id (controls the
fetch-and-reupload fallback, app.py lines 409-413), and the media id
returned by a vCard upload (app.py lines 436-443). -/
structure Oracle where
  mediaForwardOk : String → Bool
  vcardUploadId : ContactCard → Option String

/-! ## String helpers (app.py lines 89-104 and inline expressions) -/

/-- Python some_string.replace to strip plus signs, as in
FORWARD_NUMBER.replace ("+", "") (app.py lines 151, 329, 450). -/
def stripPlus (s : String) : String :=
  String.mk (s.data.filter (fun c => c ≠ '+'))

/-- Python "a or b" on an optional string: b when a is None or empty. -/
def pyOr (a : Option String) (b : String) : String :=
  match a with
  | some v => if v = "" then b else v
  | none => b

/-- Python falsiness of an optional string: None and "" are falsy. -/
def py_falsy (o : Option String) : Bool :=
  o.getD "" == ""

/-- format_phone (app.py lines 89-97): keep digits, and when at least 10
of them, insert spaces after the DDI (2 digits) and DDD (2 digits). The
argument is optional because the handler passes msg.get("from") directly
and format_phone coerces None to "". -/
def format_phone (num : Option String) : String :=
  let digits := String.mk ((num.getD "").data.filter Char.isDigit)
  if digits.length < 10 then digits
  else digits.take 2 ++ " " ++ (digits.drop 2).take 2 ++ " " ++ digits.drop 4

/-- Text built for one shared contact: formatted name and first phone
(app.py lines 363-367). -/
def contact_text (c : ContactCard) : String :=
  c.formatted_name ++ " " ++ (c.phones.head?.getD "")

/-- Joined contacts text (app.py line 368). -/
def contacts_text (cs : List ContactCard) : String :=
  if cs = [] then "" else String.intercalate " | " (cs.map contact_text)

/-- The text extracted from a message according to its type
(app.py lines 348-370). -/
def extract_text (msg : Message) (msg_type : String) : String :=
  if msg_type = "text" then msg.text_body
  else if msg_type = "interactive" then
    if msg.interactive_itype = some "button" then
      pyOr msg.interactive_button_text msg.interactive_button_payload
    else if msg.interactive_itype = some "list_reply" then
      pyOr msg.interactive_list_title msg.interactive_list_id
    else ""
  else if msg_type = "contacts" then contacts_text msg.contacts
  else msg.raw_json

/-- The fixed auto-reply text (app.py lines 373-377). -/
def reply_body (new_number : Option String) : String :=
  "Olá! Este número não está mais ativo.\nPor favor, salve meu novo contato e me chame lá:\n👉 https://wa.me/" ++
    (match new_number with
     | some n => if n = "" then "" else stripPlus n
     | none => "")

/-- The compact forwarded summary (app.py lines 388-393): name falling
back to "Desconhecido", formatted phone, local time, text falling back to
a media placeholder. -/
def compact_text (name ph hora text : String) : String :=
  ("👤 " ++ (if name = "" then "Desconhecido" else name) ++ "\n📱 " ++ ph ++ "\n🕓 " ++
      hora ++ "\n💬 ") ++
    (if text = "" then "(mensagem de mídia)" else text)

/-- msg.get(msg_type) for the three allowed media types (app.py line 402). -/
def mediaField (msg : Message) (t : String) : Option MediaObj :=
  if t = "image" then msg.image
  else if t = "document" then msg.document
  else if t = "audio" then msg.audio
  else none

/-! ## Webhook processing as an effect trace.

Each Effect is one observable action of the handler: the remetentes.txt
append, an outbound text send (auto-reply or forward, both through
send_message), a media forward attempt, the fetch-and-reupload fallback,
or a vCard document send. -/

inductive Effect where
  | logSender (sender : Option String) (profile : String)
  | sendText (phone_number_id : String) (to_ : Option String) (body : String)
  | mediaForward (phone_number_id : String) (mtype : String) (media_id : String) (caption : String)
  | mediaFetchForward (phone_number_id : String) (mtype : String) (media_id : String) (caption : String)
  | vcardForward (phone_number_id : String) (contact_name : String) (contact_phone : String)
deriving DecidableEq

/-- Media forwarding effects (app.py lines 401-415): an attempt by media
id, and on failure the fetch-and-reupload fallback. -/
def media_effects (oc : Oracle) (pnid : String) (msg : Message) (msg_type : String) :
    List Effect :=
  if msg_type ∈ ALLOWED_MEDIA_TYPES then
    match mediaField msg msg_type with
    | none => []
    | some m =>
      match m.id with
      | none => []
      | some mid =>
        if oc.mediaForwardOk mid then [Effect.mediaForward pnid msg_type mid m.caption]
        else [Effect.mediaForward pnid msg_type mid m.caption,
          Effect.mediaFetchForward pnid msg_type mid m.caption]
  else []

/-- vCard effects for a contacts message (app.py lines 418-458): one
document send per contact whose upload returned a media id. -/
def contacts_effects (oc : Oracle) (pnid : String) (msg : Message) (msg_type : String) :
    List Effect :=
  if msg_type = "contacts" then
    msg.contacts.flatMap (fun c =>
      match oc.vcardUploadId c with
      | some _ => [Effect.vcardForward pnid c.formatted_name (c.phones.head?.getD "")]
      | none => [])
  else []

/-- The bodies of the sendText effects addressed to the forward number:
the forwarded summaries among a handler run's effects (only forward_text,
app.py lines 149-162 called at 396, sends text to the forward number when
the message does not originate from it). -/
def forward_texts (fwd : String) (effs : List Effect) : List String :=
  effs.filterMap (fun e =>
    match e with
    | Effect.sendText _ t b => if t = some fwd then some b else none
    | _ => none)

/-- Processing of the first message of one change (app.py lines 316-458):
loop-prevention check against the forward number, ignored-type check, then
the remetentes.txt append, the auto-reply, the compact-summary forward and
the media/contacts follow-ups, in program order. -/
def process_message (cfg : Config) (hora : String) (oc : Oracle) (pnid : String)
    (msg : Message) : List Effect :=
  let msg_type := msg.mtype.getD "text"
  if msg.sender = some (stripPlus cfg.forward_number) then []
  else if msg_type ∈ IGNORED_TYPES then []
  else
    [Effect.logSender msg.sender msg.profile_name,
     Effect.sendText pnid msg.sender (reply_body cfg.new_number),
     Effect.sendText pnid (some (stripPlus cfg.forward_number))
       (compact_text msg.profile_name (format_phone msg.sender) hora
         (extract_text msg msg_type))] ++
      media_effects oc pnid msg msg_type ++ contacts_effects oc pnid msg msg_type

/-- Processing of one change (app.py lines 310-326): skip when it has no
messages or a falsy phone_number_id, else process the first message only. -/
def process_change (cfg : Config) (hora : String) (oc : Oracle) (c : Change) : List Effect :=
  match c.value.messages with
  | [] => []
  | msg :: _ =>
    if py_falsy c.value.phone_number_id then []
    else process_message cfg hora oc (c.value.phone_number_id.getD "") msg

/-- The inner for-loop over changes (app.py line 309). -/
def changes_loop (cfg : Config) (hora : String) (oc : Oracle) : List Change → List Effect
  | [] => []
  | c :: rest => process_change cfg hora oc c ++ changes_loop cfg hora oc rest

/-- The outer for-loop over entries (app.py line 308). -/
def entries_loop (cfg : Config) (hora : String) (oc : Oracle) : List Entry → List Effect
  | [] => []
  | e :: rest => changes_loop cfg hora oc e.changes ++ entries_loop cfg hora oc rest

/-- All effects of one POST /webhook payload (app.py lines 307-458). -/
def webhook_effects (cfg : Config) (hora : String) (oc : Oracle) (p : WebhookPayload) :
    List Effect :=
  entries_loop cfg hora oc p.entry

/-- The parsed request body as the handler sees it: request.get_json
raised (malformed JSON, empty or non-JSON body), parsed to a falsy value,
or parsed to a payload. -/
inductive RequestBody where
  | malformed
  | jsonFalsy
  | payload (p : WebhookPayload)

/-- The POST /webhook route (app.py lines 289-463): a parse failure or a
falsy body returns early, and the entry-processing loop is wrapped in a
try/except whose except branch only logs; raised is the internal error, if
any, escaping the loop body. Every path returns HTTP 200 with body ok. -/
def webhook_route (cfg : Config) (hora : String) (oc : Oracle) (body : RequestBody)
    (raised : Option String) : Nat × String :=
  match body with
  | RequestBody.malformed => (200, "ok")
  | RequestBody.jsonFalsy => (200, "ok")
  | RequestBody.payload p =>
    match raised with
    | some _ => (200, "ok")
    | none =>
      let _ := webhook_effects cfg hora oc p
      (200, "ok")

/-! ## GET /webhook verification (app.py lines 279-287) -/

inductive VerifyResponse where
  | challenge (c : Option String)
  | forbidden
deriving DecidableEq

/-- The GET /webhook handler: echo the challenge when the hub.verify_token
query parameter equals the configured VERIFY_TOKEN (both optional, None
when absent), else respond 403. -/
def verify (verify_token token challenge : Option String) : VerifyResponse :=
  if token = verify_token then VerifyResponse.challenge challenge
  else VerifyResponse.forbidden

/-! ## Session Watchdog.

Modelled from the spec: the Session Watchdog component (spec sections 3
and 4.4) is not present in src/app.py; only this one revision of the
script is available. SessionState, the threshold and the polling step are
taken from the spec wording: WAITING versus REMINDED is tracked by the
reminded flag (reminderSentAt non-null), the reminder fires when
now - lastActivityAt reaches 24h minus the configured lead, and activity
resets the state. -/

structure SessionState where
  lastActivityAt : Int
  reminded : Bool
deriving DecidableEq

/-- Modelled from the spec: the firing threshold in seconds, 24 hours
minus REMINDER_HOURS_BEFORE hours. -/
def watchdog_threshold (reminder_hours_before : Int) : Int :=
  24 * 3600 - reminder_hours_before * 3600

/-- Modelled from the spec: one polling cycle of the watchdog. Returns the
new state and whether a reminder was dispatched this cycle. In REMINDED
nothing fires; in WAITING a reminder fires once the threshold is reached. -/
def watchdog_step (reminder_hours_before now : Int) (st : SessionState) :
    SessionState × Bool :=
  if st.reminded then (st, false)
  else if watchdog_threshold reminder_hours_before ≤ now - st.lastActivityAt then
    ({ st with reminded := true }, true)
  else (st, false)

/-- Modelled from the spec: the watchdog loop over a list of polling
times, counting dispatched reminders. -/
def watchdog_run (reminder_hours_before : Int) (st : SessionState) :
    List Int → SessionState × Nat
  | [] => (st, 0)
  | now :: rest =>
    let s2 := watchdog_step reminder_hours_before now st
    let r := watchdog_run reminder_hours_before s2.1 rest
    (r.1, (if s2.2 then 1 else 0) + r.2)

/-- Modelled from the spec: qualifying inbound activity resets the state
to WAITING at the current time. -/
def activity_reset (now : Int) : SessionState :=
  { lastActivityAt := now, reminded := false }

/-! ## Spec-side definitions used for refinement comparisons -/

/-- Spec-side reading of claim C6: only the first message of the first
change of the first entry is processed, everything else in the payload is
ignored. Compared below against webhook_effects. -/
def spec_first_only_effects (cfg : Config) (hora : String) (oc : Oracle)
    (p : WebhookPayload) : List Effect :=
  match p.entry with
  | [] => []
  | e :: _ =>
    match e.changes with
    | [] => []
    | c :: _ => process_change cfg hora oc c

/-- The last 8 digits of a phone number string. -/
def last8_digits (num : String) : String :=
  let ds := (num.data.filter Char.isDigit)
  String.mk (ds.drop (ds.length - 8))

/-- Spec-side reading of claim C9: the display name comes from a preloaded
contact mapping by exact match, then by last-8-digit suffix match when
enabled, then falls back to "Desconhecido". Compared below against the
name the code actually forwards. -/
def spec_display_name (contactMap : List (String × String)) (use_last8 : Bool)
    (sender : String) : String :=
  match contactMap.lookup sender with
  | some n => n
  | none =>
    if use_last8 then
      match contactMap.find? (fun kv => last8_digits kv.1 == last8_digits sender) with
      | some kv => kv.2
      | none => "Desconhecido"
    else "Desconhecido"

/-! ## Concrete example inputs used by witnesses and counterexamples -/

def exCfg : Config :=
  { forward_number := "+5534997216766", new_number := some "+5534999999999" }

def exOracle : Oracle :=
  { mediaForwardOk := fun _ => true, vcardUploadId := fun _ => none }

def baseMsg : Message :=
  { sender := none, mtype := none, profile_name := "", text_body := "",
    interactive_itype := none, interactive_button_text := none,
    interactive_button_payload := "", interactive_list_title := none,
    interactive_list_id := "", contacts := [], image := none, document := none,
    audio := none, raw_json := "" }

def exTextMsg1 : Message :=
  { baseMsg with sender := some "5511111111111", mtype := some "text", text_body := "a" }

def exTextMsg2 : Message :=
  { baseMsg with sender := some "5522222222222", mtype := some "text", text_body := "b" }

/-- A payload with two entries, each holding one change with one message. -/
def exPayload2 : WebhookPayload :=
  ⟨[⟨[⟨⟨some "100", [exTextMsg1]⟩⟩]⟩, ⟨[⟨⟨some "100", [exTextMsg2]⟩⟩]⟩]⟩

def exStatusMsg : Message :=
  { baseMsg with sender := some "5511111111111", mtype := some "status" }

/-- A text message from a number present in the example contact mapping,
carrying a WhatsApp profile name. -/
def exMappedMsg : Message :=
  { baseMsg with
    sender := some "5534999990000"
    mtype := some "text"
    profile_name := "Alice"
    text_body := "hello" }

/-- A text message from an unrecognized number with no profile name. -/
def exUnknownMsg : Message :=
  { baseMsg with
    sender := some "5511987654321"
    mtype := some "text"
    text_body := "oi tudo bem" }

def exRetryMsg : JsonObj := [("text", Val.d [("body", "oi")])]

def exEnqueued : RetryItem :=
  send_message_retry_item "ev1" "111222" "5534997216766" exRetryMsg 0

def exRetryItem : RetryItem :=
  { id := "e1", phone_number_id := "pn", to_ := "5534", message := exRetryMsg,
    attempts := 1, last_try := 0 }

def exRetrySteps : List (Int × SendOutcome) :=
  [(100, SendOutcome.errStatus), (120, SendOutcome.errStatus)]

def exRetryOut : RetryItem :=
  { id := "e1", phone_number_id := "pn", to_ := "5534", message := exRetryMsg,
    attempts := 2, last_try := 100 }

/-! ## Theorems -/

/-- Helper: the retry worker loop equals the per-item survivor map. -/
theorem retry_cycle_flatMap (now : Int) (outcome : RetryItem → SendOutcome)
    (q : List RetryItem) :
    retry_worker_cycle now outcome q = q.flatMap (fun item =>
      if MAX_RETRIES ≤ item.attempts then []
      else if now - item.last_try < RETRY_INTERVAL_SECONDS then [item]
      else if outcome item = SendOutcome.ok then []
      else [{ item with attempts := item.attempts + 1, last_try := now }]) := by
  induction q with
  | nil => rfl
  | cons item rest ih =>
    by_cases h1 : MAX_RETRIES ≤ item.attempts
    · simp [retry_worker_cycle, h1, ih]
    · by_cases h2 : now - item.last_try < RETRY_INTERVAL_SECONDS
      · simp [retry_worker_cycle, h1, h2, ih]
      · cases hoc : outcome item <;> simp [retry_worker_cycle, h1, h2, hoc, ih]

/-- Claim C1: in every retry worker cycle, an item at MAX_RETRIES or more
attempts is dropped; an item attempted less than RETRY_INTERVAL_SECONDS
ago is kept unchanged; otherwise one resend happens and the item is
dropped on success or re-added with attempts incremented and last_try set
to the cycle time on failure; the persisted queue afterwards holds exactly
the surviving items. -/
theorem retry_worker_replaces_queue_with_survivors (file : RetryFile) (now : Int)
    (outcome : RetryItem → SendOutcome) :
    load_retries (retry_worker_pass file now outcome) =
      (load_retries file).flatMap (fun item =>
        if MAX_RETRIES ≤ item.attempts then []
        else if now - item.last_try < RETRY_INTERVAL_SECONDS then [item]
        else if outcome item = SendOutcome.ok then []
        else [{ item with attempts := item.attempts + 1, last_try := now }]) := by
  unfold retry_worker_pass
  by_cases h : load_retries file = []
  · simp [h]
  · rw [if_neg h]
    simpa [load_retries] using retry_cycle_flatMap now outcome (load_retries file)

/-- Claim C2: the claim says the retry worker resends through the same
transport path as send_message, with a JSON body holding messaging_product
and the destination in the to field. The code posts to the same url, but
its body is the stored message content alone: for an item enqueued by
send_message the posted body has neither a to nor a messaging_product key,
while the body send_message itself would build has both. This contradicts
the worker's own intent (it extracts and logs the to field at app.py
lines 491-493 but never uses it in the request), so the code is the slip. -/
theorem retry_resend_missing_envelope :
    retry_post_url exEnqueued = send_message_url "111222"
    ∧ (retry_post_body exEnqueued).lookup "to" = none
    ∧ (retry_post_body exEnqueued).lookup "messaging_product" = none
    ∧ (send_message_payload exEnqueued.to_ exEnqueued.message).lookup "to" =
        some (Val.s "5534997216766")
    ∧ (send_message_payload exEnqueued.to_ exEnqueued.message).lookup "messaging_product" =
        some (Val.s "whatsapp")
    ∧ retry_post_body exEnqueued ≠ send_message_payload exEnqueued.to_ exEnqueued.message := by
  refine ⟨rfl, by decide, by decide, by decide, by decide, by decide⟩

/-- Helper: one retry step keeps the attempts counter between its old
value and MAX_RETRIES. -/
theorem retry_step_bound (now : Int) (oc : SendOutcome) (item it : RetryItem)
    (h1 : item.attempts ≤ MAX_RETRIES) (h : retry_step now oc item = some it) :
    item.attempts ≤ it.attempts ∧ it.attempts ≤ MAX_RETRIES := by
  unfold retry_step at h
  by_cases hA : MAX_RETRIES ≤ item.attempts
  · simp [hA] at h
  · rw [if_neg hA] at h
    by_cases hB : now - item.last_try < RETRY_INTERVAL_SECONDS
    · rw [if_pos hB] at h
      injection h with h2
      subst h2
      exact ⟨Nat.le_refl _, h1⟩
    · rw [if_neg hB] at h
      have hlt : item.attempts < MAX_RETRIES := Nat.lt_of_not_le hA
      cases oc with
      | ok => exact absurd h (by simp)
      | errStatus =>
        injection h with h2
        subst h2
        exact ⟨Nat.le_succ _, hlt⟩
      | exn =>
        injection h with h2
        subst h2
        exact ⟨Nat.le_succ _, hlt⟩

/-- Helper: over any sequence of cycles, a surviving item's attempts
counter is at least the initial one and at most MAX_RETRIES. -/
theorem item_lifecycle_bound (steps : List (Int × SendOutcome)) :
    ∀ item out : RetryItem, item.attempts ≤ MAX_RETRIES →
      item_lifecycle steps item = some out →
      item.attempts ≤ out.attempts ∧ out.attempts ≤ MAX_RETRIES := by
  induction steps with
  | nil =>
    intro item out h1 h2
    unfold item_lifecycle at h2
    injection h2 with h3
    subst h3
    exact ⟨Nat.le_refl _, h1⟩
  | cons s rest ih =>
    intro item out h1 h2
    unfold item_lifecycle at h2
    cases hstep : retry_step s.1 s.2 item with
    | none => rw [hstep] at h2; cases h2
    | some it =>
      rw [hstep] at h2
      have hb := retry_step_bound s.1 s.2 item it h1 hstep
      have hrec := ih it out hb.2 h2
      exact ⟨Nat.le_trans hb.1 hrec.1, hrec.2⟩

/-- Claim C3: across a retry item's lifecycle the attempts counter is
monotonically non-decreasing and never exceeds MAX_RETRIES, and an item
that has reached MAX_RETRIES is dropped by the next processing pass and
never resent: its step result is none, the resend POST is not reached, and
it contributes nothing to the new queue. -/
theorem retry_attempts_invariant (steps : List (Int × SendOutcome)) (item : RetryItem)
    (hinit : item.attempts ≤ MAX_RETRIES) :
    (∀ out, item_lifecycle steps item = some out →
      item.attempts ≤ out.attempts ∧ out.attempts ≤ MAX_RETRIES)
    ∧ (MAX_RETRIES ≤ item.attempts →
        (∀ now oc, retry_step now oc item = none ∧ retry_step_sends now item = false)
        ∧ ∀ now outcome rest,
          retry_worker_cycle now outcome (item :: rest) = retry_worker_cycle now outcome rest) := by
  refine ⟨fun out h2 => item_lifecycle_bound steps item out hinit h2, fun hmax => ⟨?_, ?_⟩⟩
  · exact fun now oc => ⟨by simp [retry_step, hmax], by simp [retry_step_sends, hmax]⟩
  · intro now outcome rest
    simp [retry_worker_cycle, hmax]

/-- Witness for C3 at a concrete item and step sequence: one failed resend
at t=100 bumps attempts from 1 to 2, and the bounds hold. -/
theorem retry_attempts_invariant_witness :
    item_lifecycle exRetrySteps exRetryItem = some exRetryOut
    ∧ exRetryItem.attempts ≤ exRetryOut.attempts
    ∧ exRetryOut.attempts ≤ MAX_RETRIES :=
  ⟨by decide,
   ((retry_attempts_invariant exRetrySteps exRetryItem (by decide)).1 exRetryOut (by decide)).1,
   ((retry_attempts_invariant exRetrySteps exRetryItem (by decide)).1 exRetryOut (by decide)).2⟩

/-- Counterexample for C8: for a missing backing file the load returns the
empty list but, contrary to the claim, logs nothing: the os.path.exists
guard falls through silently, only the except branch logs. -/
theorem load_retries_missing_is_silent :
    load_retries RetryFile.missing = [] ∧ load_retries_log RetryFile.missing = [] :=
  ⟨rfl, rfl⟩

/-- Claim C8 as amended: an unreadable file or invalid JSON makes the load
return the empty list and log the condition; a missing file returns the
empty list silently; a valid list is returned as-is; no failure is ever
propagated (the function is total into a plain list). -/
theorem load_retries_error_semantics :
    load_retries RetryFile.missing = []
    ∧ load_retries RetryFile.unreadable = []
    ∧ load_retries RetryFile.invalidJson = []
    ∧ load_retries_log RetryFile.unreadable ≠ []
    ∧ load_retries_log RetryFile.invalidJson ≠ []
    ∧ load_retries_log RetryFile.missing = []
    ∧ ∀ items, load_retries (RetryFile.valid items) = items := by
  refine ⟨rfl, rfl, rfl, by decide, by decide, rfl, fun items => rfl⟩

/-- Claim C5: every POST /webhook request — malformed JSON, empty bodies,
or payloads whose processing raises — is answered with HTTP 200 and the
plain acknowledgement body ok. -/
theorem webhook_always_acknowledges (cfg : Config) (hora : String) (oc : Oracle)
    (body : RequestBody) (raised : Option String) :
    webhook_route cfg hora oc body raised = (200, "ok") := by
  cases body with
  | malformed => rfl
  | jsonFalsy => rfl
  | payload p => cases raised <;> rfl

/-- Helper: processing one change only depends on its first message. -/
theorem process_change_first_message_only (cfg : Config) (hora : String) (oc : Oracle)
    (c : Change) :
    process_change cfg hora oc c =
      process_change cfg hora oc ⟨⟨c.value.phone_number_id, c.value.messages.take 1⟩⟩ := by
  rcases c with ⟨⟨pnid, msgs⟩⟩
  cases msgs <;> rfl

/-- Helper: the inner loop is the flatMap of per-change processing,
truncated to each change's first message. -/
theorem changes_loop_eq_flatMap (cfg : Config) (hora : String) (oc : Oracle)
    (cs : List Change) :
    changes_loop cfg hora oc cs = cs.flatMap (fun c =>
      process_change cfg hora oc ⟨⟨c.value.phone_number_id, c.value.messages.take 1⟩⟩) := by
  induction cs with
  | nil => rfl
  | cons c rest ih =>
    rw [changes_loop, ih, List.flatMap_cons,
      process_change_first_message_only cfg hora oc c]

/-- Counterexample for C6: a payload with two entries, each with one
change carrying one message, is not processed as first-entry-only: the
second entry's message produces its own remetentes append (and sends), so
the spec-side first-only reading differs from the code. -/
theorem webhook_processes_every_entry :
    webhook_effects exCfg "08:00:00" exOracle exPayload2 ≠
      spec_first_only_effects exCfg "08:00:00" exOracle exPayload2
    ∧ Effect.logSender (some "5522222222222") "" ∈
        webhook_effects exCfg "08:00:00" exOracle exPayload2 := by
  refine ⟨by decide, by decide⟩

/-- Claim C6 as amended: within each change only the first message is
processed and the rest are silently ignored, but every change of every
entry in the payload is processed, not just the first. -/
theorem webhook_first_message_of_each_change (cfg : Config) (hora : String) (oc : Oracle)
    (p : WebhookPayload) :
    webhook_effects cfg hora oc p =
      p.entry.flatMap (fun e => e.changes.flatMap (fun c =>
        process_change cfg hora oc ⟨⟨c.value.phone_number_id, c.value.messages.take 1⟩⟩)) := by
  unfold webhook_effects
  induction p.entry with
  | nil => rfl
  | cons e rest ih =>
    rw [entries_loop, ih, List.flatMap_cons, changes_loop_eq_flatMap]

/-- Claim C7: an inbound message whose type is in the ignored set
(status, sticker, reaction, location, unknown, video) produces no effect
at all — no auto-reply, no forward, no remetentes append — and the request
is still acknowledged with 200. -/
theorem ignored_types_produce_no_effects (cfg : Config) (hora : String) (oc : Oracle)
    (pnid : String) (msg : Message)
    (h : msg.mtype.getD "text" ∈ IGNORED_TYPES) :
    process_message cfg hora oc pnid msg = []
    ∧ webhook_route cfg hora oc
        (RequestBody.payload ⟨[⟨[⟨⟨some pnid, [msg]⟩⟩]⟩]⟩) none = (200, "ok") := by
  constructor
  · unfold process_message
    by_cases hs : msg.sender = some (stripPlus cfg.forward_number)
    · simp [hs]
    · simp [hs, h]
  · rfl

/-- Witness for C7: a concrete status message yields no effects. -/
theorem ignored_types_produce_no_effects_witness :
    process_message exCfg "07:00:00" exOracle "100" exStatusMsg = [] :=
  (ignored_types_produce_no_effects exCfg "07:00:00" exOracle "100" exStatusMsg (by decide)).1

/-- Counterexample for C9: the code takes the display name from the
message's own profile field, not from a preloaded contact mapping. For a
sender present in a contact mapping as Bob but whose message carries
profile name Alice, the forwarded summary uses Alice and never the
mapping's Bob; the spec-side lookup would give Bob. -/
theorem forwarded_name_ignores_contact_mapping :
    (process_message exCfg "12:00:00" exOracle "111" exMappedMsg).contains
      (Effect.sendText "111" (some "5534997216766")
        (compact_text "Alice" (format_phone (some "5534999990000")) "12:00:00" "hello")) = true
    ∧ spec_display_name [("5534999990000", "Bob")] true "5534999990000" = "Bob"
    ∧ (process_message exCfg "12:00:00" exOracle "111" exMappedMsg).contains
        (Effect.sendText "111" (some "5534997216766")
          (compact_text "Bob" (format_phone (some "5534999990000")) "12:00:00" "hello")) = false := by
  refine ⟨by decide, by decide, by decide⟩

/-- Helper: the forwarded-summary extraction distributes over append. -/
theorem forward_texts_append (fwd : String) (a b : List Effect) :
    forward_texts fwd (a ++ b) = forward_texts fwd a ++ forward_texts fwd b := by
  simp [forward_texts]

/-- Helper: the media follow-up effects contain no text send, so no
forwarded summary. -/
theorem forward_texts_media (fwd : String) (oc : Oracle) (pnid : String) (msg : Message)
    (t : String) : forward_texts fwd (media_effects oc pnid msg t) = [] := by
  unfold media_effects
  by_cases h : t ∈ ALLOWED_MEDIA_TYPES
  · rw [if_pos h]
    rcases hm : mediaField msg t with _ | ⟨oid, cap⟩
    · rfl
    · rcases oid with _ | mid
      · rfl
      · cases hok : oc.mediaForwardOk mid <;> simp [hok, forward_texts]
  · rw [if_neg h]
    rfl

/-- Helper: the vCard follow-up effects contain no text send, so no
forwarded summary. -/
theorem forward_texts_contacts (fwd : String) (oc : Oracle) (pnid : String) (msg : Message)
    (t : String) : forward_texts fwd (contacts_effects oc pnid msg t) = [] := by
  unfold contacts_effects
  by_cases h : t = "contacts"
  · rw [if_pos h]
    induction msg.contacts with
    | nil => rfl
    | cons c rest ih =>
      rw [List.flatMap_cons, forward_texts_append, ih]
      cases hu : oc.vcardUploadId c <;> simp [forward_texts]
  · rw [if_neg h]
    rfl

/-- Claim C9 as amended: for every processed inbound message (any type
that is neither ignored nor loop-prevented), the single forwarded summary
is built from the message's own profile name; that name falls back to
"Desconhecido" exactly when the profile name is empty; and for a text
message the summary ends with the original message text verbatim. -/
theorem forwarded_summary_uses_profile_name (cfg : Config) (hora : String) (oc : Oracle)
    (pnid : String) (msg : Message)
    (hig : ¬ msg.mtype.getD "text" ∈ IGNORED_TYPES)
    (hs : msg.sender ≠ some (stripPlus cfg.forward_number)) :
    forward_texts (stripPlus cfg.forward_number) (process_message cfg hora oc pnid msg) =
      [compact_text msg.profile_name (format_phone msg.sender) hora
        (extract_text msg (msg.mtype.getD "text"))]
    ∧ (msg.profile_name = "" → ∀ t : String,
        compact_text msg.profile_name (format_phone msg.sender) hora t =
          compact_text "Desconhecido" (format_phone msg.sender) hora t)
    ∧ (msg.mtype.getD "text" = "text" →
        extract_text msg (msg.mtype.getD "text") = msg.text_body
        ∧ (msg.text_body ≠ "" → ∃ head_part,
            compact_text msg.profile_name (format_phone msg.sender) hora msg.text_body =
              head_part ++ msg.text_body)) := by
  refine ⟨?_, ?_, ?_⟩
  · unfold process_message
    rw [if_neg hs, if_neg hig]
    rw [forward_texts_append, forward_texts_append, forward_texts_media,
      forward_texts_contacts]
    simp [forward_texts, hs]
  · intro hpn t
    rw [hpn]
    rfl
  · intro hty
    constructor
    · rw [hty]
      simp [extract_text]
    · intro htb
      refine ⟨"👤 " ++ (if msg.profile_name = "" then "Desconhecido" else msg.profile_name) ++
        "\n📱 " ++ format_phone msg.sender ++ "\n🕓 " ++ hora ++ "\n💬 ", ?_⟩
      unfold compact_text
      rw [if_neg htb]

/-- Witness for C9 as amended: a concrete text message from an
unrecognized number with no profile name yields exactly one forwarded
summary, carrying the name "Desconhecido" and the text verbatim. -/
theorem forwarded_summary_uses_profile_name_witness :
    forward_texts (stripPlus exCfg.forward_number)
        (process_message exCfg "09:00:00" exOracle "100" exUnknownMsg) =
      [compact_text exUnknownMsg.profile_name (format_phone exUnknownMsg.sender) "09:00:00"
        (extract_text exUnknownMsg (exUnknownMsg.mtype.getD "text"))]
    ∧ compact_text exUnknownMsg.profile_name (format_phone exUnknownMsg.sender) "09:00:00"
        (extract_text exUnknownMsg (exUnknownMsg.mtype.getD "text")) =
      "👤 Desconhecido\n📱 55 11 987654321\n🕓 09:00:00\n💬 oi tudo bem" :=
  ⟨(forwarded_summary_uses_profile_name exCfg "09:00:00" exOracle "100" exUnknownMsg
      (by decide) (by decide)).1,
   by decide⟩

/-- Claim C10: GET /webhook verification succeeds exactly when the
hub.verify_token parameter equals the configured VERIFY_TOKEN, including
the unset case: with no VERIFY_TOKEN environment variable and no
hub.verify_token parameter both sides are None, verification passes, and
the handler returns the challenge rather than the 403 response. -/
theorem verify_token_equality (vt tok chal : Option String) :
    (verify vt tok chal = VerifyResponse.challenge chal ↔ tok = vt)
    ∧ verify none none chal = VerifyResponse.challenge chal
    ∧ verify none none chal ≠ VerifyResponse.forbidden := by
  refine ⟨⟨fun h => ?_, fun h => by simp [verify, h]⟩, by simp [verify], by simp [verify]⟩
  by_contra hne
  simp [verify, hne] at h

/-- Helper: in the REMINDED state the watchdog never fires and the state
is unchanged, whatever the polling times. -/
theorem watchdog_run_reminded (rhb : Int) (st : SessionState) (h : st.reminded = true) :
    ∀ polls : List Int, watchdog_run rhb st polls = (st, 0) := by
  intro polls
  induction polls with
  | nil => rfl
  | cons t rest ih => simp [watchdog_run, watchdog_step, h, ih]

/-- Helper: while every polling time is before the threshold, the watchdog
stays in WAITING and fires nothing. -/
theorem watchdog_run_quiet (rhb T : Int) (polls : List Int)
    (h : ∀ t ∈ polls, t - T < watchdog_threshold rhb) :
    watchdog_run rhb ⟨T, false⟩ polls = (⟨T, false⟩, 0) := by
  induction polls with
  | nil => rfl
  | cons t rest ih =>
    have ht : ¬ watchdog_threshold rhb ≤ t - T := not_le.mpr (h t (by simp))
    have ih2 := ih (fun x hx => h x (by simp [hx]))
    simp [watchdog_run, watchdog_step, ht, ih2]

/-- Helper: if some polling time reaches the threshold, exactly one
reminder fires over the whole run. -/
theorem watchdog_run_fires (rhb T : Int) (polls : List Int)
    (h : ∃ t ∈ polls, watchdog_threshold rhb ≤ t - T) :
    (watchdog_run rhb ⟨T, false⟩ polls).2 = 1 := by
  induction polls with
  | nil => simp at h
  | cons t rest ih =>
    by_cases hc : watchdog_threshold rhb ≤ t - T
    · have hrest := watchdog_run_reminded rhb ⟨T, true⟩ rfl rest
      simp [watchdog_run, watchdog_step, hc, hrest]
    · obtain ⟨u, hu, hu2⟩ := h
      rcases List.mem_cons.mp hu with h1 | h1
      · exact absurd (h1 ▸ hu2) hc
      · simp [watchdog_run, watchdog_step, hc, ih ⟨u, h1, hu2⟩]

/-- Claim C4 (watchdog modelled from the spec, absent from src/app.py):
with last qualifying activity at time T and the state freshly reset, no
reminder fires at polls strictly before T plus (24h minus
REMINDER_HOURS_BEFORE); if some poll reaches that point exactly one
reminder fires over the run; and in the REMINDED state every further
reminder is suppressed until the next activity reset. -/
theorem watchdog_single_reminder (rhb T : Int) (polls : List Int) :
    ((∀ t ∈ polls, t - T < watchdog_threshold rhb) →
      (watchdog_run rhb ⟨T, false⟩ polls).2 = 0)
    ∧ ((∃ t ∈ polls, watchdog_threshold rhb ≤ t - T) →
      (watchdog_run rhb ⟨T, false⟩ polls).2 = 1)
    ∧ (watchdog_run rhb ⟨T, true⟩ polls).2 = 0
    ∧ (activity_reset T).reminded = false := by
  refine ⟨fun h => ?_, fun h => watchdog_run_fires rhb T polls h, ?_, rfl⟩
  · rw [watchdog_run_quiet rhb T polls h]
  · rw [watchdog_run_reminded rhb ⟨T, true⟩ rfl polls]

/-- Witness for C4: lead of one hour, activity at T=0, polls at 100s and
90000s; the second poll is past the 82800s threshold so exactly one
reminder fires. -/
theorem watchdog_single_reminder_witness :
    (watchdog_run 1 ⟨0, false⟩ [100, 90000]).2 = 1 :=
  (watchdog_single_reminder 1 0 [100, 90000]).2.1 ⟨90000, by simp, by decide⟩
